import Mathlib

/-!
Shallow embedding of the `orchardgrid-app` automation repository.

The single source file `add_file_to_xcode.py` is a straight-line Python
module: it prints a status line, invokes `xcodebuild ... clean` with
`check=True`, prints a second status line, invokes `xcodebuild ... build`
with `check=True`, and prints `Done!`.  With `check=True`, a non-zero child
exit raises `CalledProcessError`, which is uncaught, so the interpreter
aborts the remaining statements and terminates with exit status 1.

We embed the module body as a list of effectful statements and give it a
trace semantics parameterized by an environment assigning an exit code to
each child command.  A filesystem is threaded through execution so that the
absence of file effects is expressible rather than vacuous.

The spec also documents a `ProjectFileRegistrar` utility whose code is not
part of the source tree; it is modelled from the spec's words below.
-/

/-- A child-process command: an executable name and its argument list,
as passed to `subprocess.run`. -/
structure Cmd where
  exe : String
  args : List String
deriving DecidableEq, Repr

/-- An entry in the project manifest associating a relative path with an
optional parent-group association.  Modelled from the spec: the
`FileReference` record of the data model. -/
structure FileReference where
  path : String
  parentGroup : Option String
deriving DecidableEq, Repr

/-- Modelled from the spec: the `ProjectManifest`, an external resource
owning a set of file references. -/
structure Manifest where
  refs : List FileReference
deriving DecidableEq, Repr

/-- Modelled from the spec: `findReference(path) -> Optional[FileReference]`
on the manifest capability. -/
def Manifest.findReference (m : Manifest) (p : String) : Option FileReference :=
  m.refs.find? (fun r => r.path == p)

/-- Modelled from the spec: `addReference(path, parentGroup)` on the
manifest capability; inserts a new file reference. -/
def Manifest.addReference (m : Manifest) (p : String) (pg : Option String) : Manifest :=
  ⟨m.refs ++ [⟨p, pg⟩]⟩

/-- Content stored at a filesystem path: a parseable manifest or a
malformed file. -/
inductive FileContent where
  | manifest (m : Manifest)
  | malformed
deriving DecidableEq, Repr

/-- A filesystem: a partial map from paths to file contents. -/
def FS := String → Option FileContent

/-- Point update of a filesystem. -/
def FS.update (fs : FS) (p : String) (c : FileContent) : FS :=
  fun q => if q = p then some c else fs q

/-- Errors of the registrar, from the spec's error taxonomy. -/
inductive RegError where
  | manifestNotFound
  | manifestParseError
deriving DecidableEq, Repr

/-- Modelled from the spec: `registerFile(manifestPath, filePath,
parentGroup) -> Result<Changed, Error>` of the `ProjectFileRegistrar`,
which is not among the source files.  Loads the manifest (failing with
`ManifestNotFound` when absent, `ManifestParseError` when malformed),
returns `Changed=false` with no write when the path is already referenced,
and otherwise inserts a reference and persists the manifest, returning
`Changed=true`.  The returned filesystem is the post-state. -/
def registerFile (fs : FS) (manifestPath filePath : String)
    (parentGroup : Option String) : FS × Except RegError Bool :=
  match fs manifestPath with
  | none => (fs, .error .manifestNotFound)
  | some .malformed => (fs, .error .manifestParseError)
  | some (.manifest m) =>
    match m.findReference filePath with
    | some _ => (fs, .ok false)
    | none =>
      (fs.update manifestPath (.manifest (m.addReference filePath parentGroup)),
       .ok true)

/-- Modelled from the spec: the registrar utility's console output — the
user-facing confirmation line printed when registration succeeds. -/
def registrarOutput (fs : FS) (manifestPath filePath : String)
    (parentGroup : Option String) : List String :=
  match (registerFile fs manifestPath filePath parentGroup).2 with
  | .ok _ => ["Successfully added " ++ filePath ++ " to the project!"]
  | .error _ => []

/-- One effectful statement of the Python module body. -/
inductive Stmt where
  | print (s : String)
  | runChecked (c : Cmd) (timeout : Option Nat)
  | writeFile (p : String) (content : FileContent)
deriving DecidableEq, Repr

/-- An observable event emitted during execution. -/
inductive Event where
  | printed (s : String)
  | ran (c : Cmd) (exitCode : Nat)
  | wrote (p : String)
deriving DecidableEq, Repr

/-- The data of Python's `CalledProcessError`: the command that failed and
its return code. -/
structure Cpe where
  cmd : Cmd
  returncode : Nat
deriving DecidableEq, Repr

/-- Execute a statement list.  `env` gives the exit code of each child
command.  A `runChecked` whose child exits non-zero raises
`CalledProcessError` (as `check=True` does), aborting the rest of the
program; `exec` returns the event trace, the final filesystem, and the
outcome. -/
def exec (env : Cmd → Nat) : List Stmt → FS → List Event × FS × Except Cpe Unit
  | [], fs => ([], fs, .ok ())
  | Stmt.print s :: rest, fs =>
    let r := exec env rest fs
    (Event.printed s :: r.1, r.2)
  | Stmt.runChecked c _t :: rest, fs =>
    let e := env c
    if e = 0 then
      let r := exec env rest fs
      (Event.ran c e :: r.1, r.2)
    else
      ([Event.ran c e], fs, .error ⟨c, e⟩)
  | Stmt.writeFile p content :: rest, fs =>
    let r := exec env rest (fs.update p content)
    (Event.wrote p :: r.1, r.2)

/-- `project_path = "orchardgrid-app.xcodeproj"` from the script. -/
def project_path : String := "orchardgrid-app.xcodeproj"

/-- `file_path = "orchardgrid-app/SharedTypes.swift"` from the script
(assigned and never used). -/
def file_path : String := "orchardgrid-app/SharedTypes.swift"

/-- The first `subprocess.run` command of the script. -/
def cleanCmd : Cmd :=
  ⟨"xcodebuild", ["-project", project_path, "-scheme", "orchardgrid-app", "clean"]⟩

/-- The second `subprocess.run` command of the script. -/
def buildCmd : Cmd :=
  ⟨"xcodebuild", ["-project", project_path, "-scheme", "orchardgrid-app", "build"]⟩

/-- The module body of `add_file_to_xcode.py` as a statement list.  It is
parameterized by the value of the unused `file_path` constant and by the
process's command-line arguments (`sys` is imported but `sys.argv` is never
read), neither of which occurs in any statement.  `subprocess.run` is
called without a `timeout` argument, i.e. with Python's default
`timeout=None`. -/
def script (fp : String) (argv : List String) : List Stmt :=
  [Stmt.print "Cleaning build folder...",
   Stmt.runChecked cleanCmd none,
   Stmt.print "Building project...",
   Stmt.runChecked buildCmd none,
   Stmt.print "Done!"]

/-- A run of the script on a filesystem, under exit-code environment
`env`. -/
def runScript (env : Cmd → Nat) (fs : FS) : List Event × FS × Except Cpe Unit :=
  exec env (script file_path []) fs

/-- The empty filesystem. -/
def emptyFS : FS := fun _ => none

/-- The process exit status of the script: 0 on normal completion, 1 when
the uncaught `CalledProcessError` aborts the interpreter. -/
def exitCode (env : Cmd → Nat) : Nat :=
  match (runScript env emptyFS).2.2 with
  | .ok _ => 0
  | .error _ => 1

/-- Whether a `subprocess.run` call with the given `timeout` returns
normally (rather than raising `TimeoutExpired`) when the child terminates
after `duration` time units.  With `timeout=None` the call blocks until
the child terminates, whatever the duration. -/
def completesAt : Option Nat → Nat → Bool
  | none, _ => true
  | some t, d => d ≤ t

/-- Does an event touch the filesystem? -/
def isFileEvent : Event → Bool
  | Event.wrote _ => true
  | _ => false

/-- The command of a run event, when the event is one. -/
def eventRunCmd : Event → Option Cmd
  | Event.ran c _ => some c
  | _ => none

/-- The command of a `runChecked` statement, when the statement is one. -/
def stmtRunCmd : Stmt → Option Cmd
  | Stmt.runChecked c _ => some c
  | _ => none

/-- A filesystem whose manifest already references the registered path. -/
def fsAlready : FS :=
  fun p =>
    if p = "project.manifest" then
      some (FileContent.manifest ⟨[⟨"App/Generated.ext", none⟩]⟩)
    else none

/-- A filesystem holding an empty manifest at path `"m"`. -/
def fsEmptyManifest : FS :=
  fun p => if p = "m" then some (FileContent.manifest ⟨[]⟩) else none

theorem runScript_clean_fail (env : Cmd → Nat) (fs : FS) (h : env cleanCmd ≠ 0) :
    runScript env fs =
      ([Event.printed "Cleaning build folder...",
        Event.ran cleanCmd (env cleanCmd)],
       fs, Except.error ⟨cleanCmd, env cleanCmd⟩) := by
  simp [runScript, script, exec, h]

theorem runScript_build_fail (env : Cmd → Nat) (fs : FS)
    (h1 : env cleanCmd = 0) (h2 : env buildCmd ≠ 0) :
    runScript env fs =
      ([Event.printed "Cleaning build folder...",
        Event.ran cleanCmd 0,
        Event.printed "Building project...",
        Event.ran buildCmd (env buildCmd)],
       fs, Except.error ⟨buildCmd, env buildCmd⟩) := by
  simp [runScript, script, exec, h1, h2]

theorem runScript_ok (env : Cmd → Nat) (fs : FS)
    (h1 : env cleanCmd = 0) (h2 : env buildCmd = 0) :
    runScript env fs =
      ([Event.printed "Cleaning build folder...",
        Event.ran cleanCmd 0,
        Event.printed "Building project...",
        Event.ran buildCmd 0,
        Event.printed "Done!"],
       fs, Except.ok ()) := by
  simp [runScript, script, exec, h1, h2]

/-- C1: the build subprocess is invoked only if the clean subprocess has
already been invoked and exited with code 0; it appears later in the trace
than the successful clean invocation, and if the clean step fails the
build step is never invoked (contrapositive of the first conjunct). -/
theorem build_requires_clean_success (env : Cmd → Nat) (fs : FS)
    (h : ∃ e, Event.ran buildCmd e ∈ (runScript env fs).1) :
    env cleanCmd = 0 ∧
    (runScript env fs).1[1]? = some (Event.ran cleanCmd 0) ∧
    (runScript env fs).1[3]? = some (Event.ran buildCmd (env buildCmd)) := by
  by_cases h1 : env cleanCmd = 0
  · refine ⟨h1, ?_⟩
    by_cases h2 : env buildCmd = 0
    · rw [runScript_ok env fs h1 h2]
      rw [h2]
      exact ⟨rfl, rfl⟩
    · rw [runScript_build_fail env fs h1 h2]
      exact ⟨rfl, rfl⟩
  · exfalso
    obtain ⟨e, he⟩ := h
    rw [runScript_clean_fail env fs h1] at he
    have hbc : buildCmd ≠ cleanCmd := by decide
    simp only [List.mem_cons, List.not_mem_nil, or_false] at he
    rcases he with he | he
    · exact Event.noConfusion he
    · injection he with hc _
      exact hbc hc

/-- C1 witness: with every child exiting 0 the build event occurs, and the
clean invocation with exit code 0 precedes it in the trace. -/
theorem build_requires_clean_success_witness :
    (fun _ : Cmd => (0 : Nat)) cleanCmd = 0 ∧
    (runScript (fun _ => 0) emptyFS).1[1]? = some (Event.ran cleanCmd 0) ∧
    (runScript (fun _ => 0) emptyFS).1[3]?
      = some (Event.ran buildCmd ((fun _ : Cmd => (0 : Nat)) buildCmd)) :=
  build_requires_clean_success (fun _ => 0) emptyFS
    ⟨0, by simp [runScript, script, exec, emptyFS]⟩

/-- C2: the run completes normally iff both child invocations exit 0 in
order; on a non-zero child exit the outcome is an error carrying the
failing command and its exit code, the trace ends at that invocation (no
further steps), and each command is issued at most once (no retry). -/
theorem run_outcome_characterization (env : Cmd → Nat) (fs : FS) :
    ((runScript env fs).2.2 = Except.ok () ↔
      env cleanCmd = 0 ∧ env buildCmd = 0) ∧
    (env cleanCmd ≠ 0 →
      (runScript env fs).2.2 = Except.error ⟨cleanCmd, env cleanCmd⟩ ∧
      (runScript env fs).1.getLast? = some (Event.ran cleanCmd (env cleanCmd))) ∧
    (env cleanCmd = 0 → env buildCmd ≠ 0 →
      (runScript env fs).2.2 = Except.error ⟨buildCmd, env buildCmd⟩ ∧
      (runScript env fs).1.getLast? = some (Event.ran buildCmd (env buildCmd))) ∧
    ((runScript env fs).1.filterMap eventRunCmd = [cleanCmd] ∨
     (runScript env fs).1.filterMap eventRunCmd = [cleanCmd, buildCmd]) := by
  by_cases h1 : env cleanCmd = 0
  · by_cases h2 : env buildCmd = 0
    · rw [runScript_ok env fs h1 h2]
      refine ⟨by simp [h1, h2], fun hc => absurd h1 hc,
        fun _ hb => absurd h2 hb, Or.inr ?_⟩
      rfl
    · rw [runScript_build_fail env fs h1 h2]
      refine ⟨by simp [h2], fun hc => absurd h1 hc,
        fun _ _ => ⟨rfl, rfl⟩, Or.inr ?_⟩
      rfl
  · rw [runScript_clean_fail env fs h1]
    exact ⟨by simp [h1], fun _ => ⟨rfl, rfl⟩,
      fun hc => absurd hc h1, Or.inl rfl⟩

/-- C2 witness: with every child exiting 7 the clean step fails, the run's
outcome is the error carrying the clean command and exit code 7, and the
trace ends at the clean invocation. -/
theorem run_outcome_characterization_witness :
    (runScript (fun _ => 7) emptyFS).2.2 = Except.error ⟨cleanCmd, 7⟩ ∧
    (runScript (fun _ => 7) emptyFS).1.getLast? = some (Event.ran cleanCmd 7) :=
  (run_outcome_characterization (fun _ => 7) emptyFS).2.1 (by decide)

/-- C3: the script invokes exactly one external executable, `xcodebuild`,
with the two hard-coded argument lists ending in `clean` and `build`; in a
fully successful run they are issued exactly twice, sequentially, clean
first. -/
theorem xcodebuild_invoked_twice :
    buildCmd.exe = cleanCmd.exe ∧
    cleanCmd.exe = "xcodebuild" ∧
    cleanCmd.args =
      ["-project", "orchardgrid-app.xcodeproj", "-scheme", "orchardgrid-app",
       "clean"] ∧
    buildCmd.args =
      ["-project", "orchardgrid-app.xcodeproj", "-scheme", "orchardgrid-app",
       "build"] ∧
    (script file_path []).filterMap stmtRunCmd = [cleanCmd, buildCmd] ∧
    (∀ (env : Cmd → Nat) (fs : FS), env cleanCmd = 0 → env buildCmd = 0 →
      (runScript env fs).1.filterMap eventRunCmd = [cleanCmd, buildCmd]) := by
  refine ⟨rfl, rfl, rfl, rfl, rfl, fun env fs h1 h2 => ?_⟩
  rw [runScript_ok env fs h1 h2]
  rfl

/-- C3 witness: in a run where both children exit 0, the issued commands
are exactly the clean command then the build command. -/
theorem xcodebuild_invoked_twice_witness :
    (runScript (fun _ => 0) emptyFS).1.filterMap eventRunCmd
      = [cleanCmd, buildCmd] :=
  xcodebuild_invoked_twice.2.2.2.2.2 (fun _ => 0) emptyFS rfl rfl

/-- C4: the process exit status is 0 exactly when both children exit 0;
any failure yields exit status 1 (non-zero) together with the uncaught
error naming the failing command and its exit code (the diagnostic). -/
theorem exit_status_nonzero_on_failure (env : Cmd → Nat) :
    (exitCode env = 0 ↔ env cleanCmd = 0 ∧ env buildCmd = 0) ∧
    (exitCode env ≠ 0 →
      exitCode env = 1 ∧
      ∃ c, (runScript env emptyFS).2.2 = Except.error ⟨c, env c⟩ ∧
           env c ≠ 0) := by
  by_cases h1 : env cleanCmd = 0
  · by_cases h2 : env buildCmd = 0
    · have hr := runScript_ok env emptyFS h1 h2
      constructor
      · simp [exitCode, hr, h1, h2]
      · intro hne
        exact absurd (by simp [exitCode, hr]) hne
    · have hr := runScript_build_fail env emptyFS h1 h2
      constructor
      · simp [exitCode, hr, h2]
      · intro _
        exact ⟨by simp [exitCode, hr], buildCmd, by simp [hr], h2⟩
  · have hr := runScript_clean_fail env emptyFS h1
    constructor
    · simp [exitCode, hr, h1]
    · intro _
      exact ⟨by simp [exitCode, hr], cleanCmd, by simp [hr], h1⟩

/-- C4 witness: with every child exiting 3, the script's exit status is 1
and the outcome is an error carrying the failing command and code 3. -/
theorem exit_status_nonzero_on_failure_witness :
    exitCode (fun _ => 3) = 1 ∧
    ∃ c, (runScript (fun _ => 3) emptyFS).2.2 = Except.error ⟨c, 3⟩ ∧
         (3 : Nat) ≠ 0 :=
  (exit_status_nonzero_on_failure (fun _ => 3)).2 (by decide)

/-- C5: on a successful run the script prints, in order, the clean status
line before the clean invocation, the build status line before the build
invocation, and `Done!` after the build succeeds; the registrar utility
prints its confirmation line on success. -/
theorem status_lines_on_success (env : Cmd → Nat) (fs : FS)
    (h1 : env cleanCmd = 0) (h2 : env buildCmd = 0) :
    (runScript env fs).1 =
      [Event.printed "Cleaning build folder...",
       Event.ran cleanCmd 0,
       Event.printed "Building project...",
       Event.ran buildCmd 0,
       Event.printed "Done!"] ∧
    (∀ (fs2 : FS) (mp fp : String) (pg : Option String) (b : Bool),
      (registerFile fs2 mp fp pg).2 = Except.ok b →
      registrarOutput fs2 mp fp pg =
        ["Successfully added " ++ fp ++ " to the project!"]) := by
  constructor
  · rw [runScript_ok env fs h1 h2]
  · intro fs2 mp fp pg b hok
    simp [registrarOutput, hok]

/-- C5 witness: the concrete trace of a run where both children exit 0. -/
theorem status_lines_on_success_witness :
    (runScript (fun _ => 0) emptyFS).1 =
      [Event.printed "Cleaning build folder...",
       Event.ran cleanCmd 0,
       Event.printed "Building project...",
       Event.ran buildCmd 0,
       Event.printed "Done!"] :=
  (status_lines_on_success (fun _ => 0) emptyFS rfl rfl).1

theorem find?_append_of_none {α : Type} (p : α → Bool) (l1 l2 : List α)
    (h : l1.find? p = none) : (l1 ++ l2).find? p = l2.find? p := by
  induction l1 with
  | nil => simp
  | cons a t ih =>
    cases hpa : p a with
    | true =>
      rw [List.find?_cons_of_pos _ hpa] at h
      exact absurd h (by simp)
    | false =>
      have hpa2 : ¬p a = true := by simp [hpa]
      rw [List.find?_cons_of_neg _ hpa2] at h
      rw [List.cons_append, List.find?_cons_of_neg _ hpa2]
      exact ih h

theorem findReference_addReference (m : Manifest) (fp : String)
    (pg : Option String) (habs : m.findReference fp = none) :
    (m.addReference fp pg).findReference fp = some ⟨fp, pg⟩ := by
  unfold Manifest.findReference Manifest.addReference
  unfold Manifest.findReference at habs
  rw [find?_append_of_none _ _ _ habs]
  simp

/-- C6 counterexample: on a manifest that already references the path, the
first of two identical `registerFile` calls returns `Changed=false`, not
`Changed=true` as the claim requires of every manifest. -/
theorem registerFile_first_call_not_always_changed :
    (registerFile fsAlready "project.manifest" "App/Generated.ext" none).2
      = Except.ok false ∧
    (Except.ok false : Except RegError Bool) ≠ Except.ok true := by
  refine ⟨rfl, fun h => ?_⟩
  injection h with h2
  exact Bool.noConfusion h2

/-- C6 (amended): for every manifest that does not yet reference the path,
the first `registerFile` call returns `Changed=true`, the second identical
call returns `Changed=false` and performs no write (the filesystem it
returns is exactly its input), the stored manifest is the original with
the single new reference appended, and it holds exactly one entry for the
path. -/
theorem registerFile_idempotent (fs : FS) (mp fp : String)
    (pg : Option String) (m : Manifest)
    (hm : fs mp = some (FileContent.manifest m))
    (habs : m.findReference fp = none) :
    (registerFile fs mp fp pg).2 = Except.ok true ∧
    registerFile (registerFile fs mp fp pg).1 mp fp pg
      = ((registerFile fs mp fp pg).1, Except.ok false) ∧
    (registerFile fs mp fp pg).1 mp
      = some (FileContent.manifest (m.addReference fp pg)) ∧
    ((m.addReference fp pg).refs.filter (fun r => r.path == fp)).length = 1 := by
  have hfind := findReference_addReference m fp pg habs
  have hr1 : registerFile fs mp fp pg =
      (fs.update mp (FileContent.manifest (m.addReference fp pg)),
       Except.ok true) := by
    simp [registerFile, hm, habs]
  have hupd : (fs.update mp (FileContent.manifest (m.addReference fp pg))) mp
      = some (FileContent.manifest (m.addReference fp pg)) := by
    simp [FS.update]
  have hr2 : registerFile
      (fs.update mp (FileContent.manifest (m.addReference fp pg))) mp fp pg
      = (fs.update mp (FileContent.manifest (m.addReference fp pg)),
         Except.ok false) := by
    simp [registerFile, hupd, hfind]
  refine ⟨by rw [hr1], ?_, by rw [hr1]; exact hupd, ?_⟩
  · rw [hr1]
    exact hr2
  · unfold Manifest.addReference
    rw [List.filter_append]
    have hnil : m.refs.filter (fun r => r.path == fp) = [] := by
      rw [List.filter_eq_nil_iff]
      intro r hr
      have := List.find?_eq_none.mp habs r hr
      simpa using this
    rw [hnil]
    simp

/-- C6 witness: on an empty manifest at path `"m"`, registering `"a"`
yields `Changed=true` then `Changed=false` with no second write, and the
stored manifest holds exactly one reference to `"a"`. -/
theorem registerFile_idempotent_witness :
    (registerFile fsEmptyManifest "m" "a" none).2 = Except.ok true ∧
    registerFile (registerFile fsEmptyManifest "m" "a" none).1 "m" "a" none
      = ((registerFile fsEmptyManifest "m" "a" none).1, Except.ok false) ∧
    (registerFile fsEmptyManifest "m" "a" none).1 "m"
      = some (FileContent.manifest (Manifest.addReference ⟨[]⟩ "a" none)) ∧
    ((Manifest.addReference ⟨[]⟩ "a" none).refs.filter
      (fun r => r.path == "a")).length = 1 :=
  registerFile_idempotent fsEmptyManifest "m" "a" none ⟨[]⟩ rfl rfl

/-- C7: when no file exists at the manifest path, `registerFile` fails
with `ManifestNotFound` and returns the filesystem unchanged. -/
theorem registerFile_manifest_not_found (fs : FS) (mp fp : String)
    (pg : Option String) (h : fs mp = none) :
    registerFile fs mp fp pg = (fs, Except.error RegError.manifestNotFound) := by
  unfold registerFile
  rw [h]

/-- C7 witness: on the empty filesystem the call fails with
`ManifestNotFound` and leaves the filesystem as it was. -/
theorem registerFile_manifest_not_found_witness :
    registerFile emptyFS "project.manifest" "App/Generated.ext" none
      = (emptyFS, Except.error RegError.manifestNotFound) :=
  registerFile_manifest_not_found emptyFS "project.manifest"
    "App/Generated.ext" none rfl

/-- C8: neither subprocess invocation of the script carries a timeout
(every `runChecked` statement has `timeout = none`), and a call with
`timeout = none` returns only when the child terminates, whatever the
duration. -/
theorem subprocess_no_timeout :
    ((script file_path []).all fun s =>
      match s with
      | Stmt.runChecked _ t => t == none
      | _ => true) = true ∧
    (∀ d : Nat, completesAt none d = true) :=
  ⟨rfl, fun _ => rfl⟩

/-- C9: a run of the script leaves the filesystem exactly as it was and
its trace contains no file event: its only side effects are the printed
lines and the child-process invocations. -/
theorem script_touches_no_files (env : Cmd → Nat) (fs : FS) :
    (runScript env fs).2.1 = fs ∧
    (runScript env fs).1.filter isFileEvent = [] := by
  by_cases h1 : env cleanCmd = 0
  · by_cases h2 : env buildCmd = 0
    · rw [runScript_ok env fs h1 h2]
      exact ⟨rfl, rfl⟩
    · rw [runScript_build_fail env fs h1 h2]
      exact ⟨rfl, rfl⟩
  · rw [runScript_clean_fail env fs h1]
    exact ⟨rfl, rfl⟩

/-- C10: the script's observable behavior — trace, final filesystem and
outcome — does not depend on the value of the unused `file_path` constant
or on the command-line arguments. -/
theorem behavior_independent_of_file_path (fp1 fp2 : String)
    (argv1 argv2 : List String) (env : Cmd → Nat) (fs : FS) :
    exec env (script fp1 argv1) fs = exec env (script fp2 argv2) fs := rfl
